import Mathlib

/-!
Verification development for the prepaid-energy-meter backend
(accounts / payments / energy_usage / notifications Django apps).

Monetary and energy quantities are Python `Decimal` values in the source;
they are embedded as exact rationals (`ℚ`), which matches `Decimal`
arithmetic for the additions, multiplications and comparisons the code
performs.  Timestamps are seconds since the epoch (UTC), dates are days
since the epoch.  Django model rows become Lean structures, the database
tables become lists, and each signal handler / view action becomes a
function from state to state.
-/

/-- Rounding to 2 decimal places with ties away from zero (round-half-up),
as the specification's Cost Model section describes it.  Used only to state
the spec's rounding claim against the source; the source itself is embedded
separately (`readingCost`). -/
def specRoundHalfUp2 (x : ℚ) : ℚ :=
  (⌊x * 100 + 1 / 2⌋ : ℚ) / 100

/-- Round a rational to the nearest integer, ties to even
(the rounding Python's builtin `round` performs on the exact value). -/
def roundHalfEven (x : ℚ) : ℤ :=
  if x - ⌊x⌋ < 1 / 2 then ⌊x⌋
  else if 1 / 2 < x - ⌊x⌋ then ⌊x⌋ + 1
  else if ⌊x⌋ % 2 = 0 then ⌊x⌋ else ⌊x⌋ + 1

/-- Python's `round(x, 2)` on the exact value of `x`. -/
def pythonRound2 (x : ℚ) : ℚ :=
  (roundHalfEven (x * 100) : ℚ) / 100

/-- `Notification.NOTIFICATION_TYPES` from notifications/models.py. -/
inductive NotificationType where
  | low_balance
  | high_usage
  | payment_success
  | payment_failed
  | device_offline
  | device_online
  | system
  | general
deriving DecidableEq, Repr

/-- The structured `data` JSON payload attached to a Notification row by the
signal handlers and by `Payment.mark_as_success` / `mark_as_failed`. -/
inductive NotificationData where
  /-- `data` of a high_usage alert: reading_id, energy_kwh, threshold. -/
  | highUsage (readingId : Nat) (energyKwh threshold : ℚ)
  /-- `data` of a low_balance alert: balance, threshold. -/
  | lowBalance (balance threshold : ℚ)
  /-- `data` of a payment_success / payment_failed notification: payment_id. -/
  | payment (paymentId : Nat)
deriving DecidableEq, Repr

/-- A `Notification` row (notifications/models.py).  The human-readable
`title`/`message` strings and the read/delivery flags are not relevant to
the claims and are omitted. -/
structure Notification where
  userId : Nat
  notificationType : NotificationType
  data : NotificationData
deriving DecidableEq, Repr

/-- The custom `User` model (accounts/models.py), restricted to the fields
the alerting and ledger code reads. -/
structure User where
  id : Nat
  balance : ℚ
  low_balance_alert : Bool
  usage_alert : Bool
  low_balance_threshold : ℚ
  usage_threshold : ℚ
deriving DecidableEq, Repr

/-- An `EnergyReading` row (energy_usage/models.py); `timestamp` is seconds
since the epoch, UTC. -/
structure EnergyReading where
  id : Nat
  userId : Nat
  timestamp : Nat
  energy_kwh : ℚ
  power_kw : ℚ
  cost : ℚ
deriving DecidableEq, Repr

/-- `Payment.STATUS_CHOICES` from payments/models.py. -/
inductive PaymentStatus where
  | pending
  | processing
  | success
  | failed
  | cancelled
  | refunded
deriving DecidableEq, Repr

/-- A `Payment` row (payments/models.py), restricted to the fields the
ledger and signal code reads. -/
structure Payment where
  id : Nat
  userId : Nat
  amount : ℚ
  status : PaymentStatus
deriving DecidableEq, Repr

/-- `check_usage_alerts` (notifications/signals.py lines 17-33): post_save
receiver for EnergyReading.  `u` is `reading.user` at signal time;
`notifications` is the notification table, to which `Notification.objects.create`
appends. -/
def check_usage_alerts (u : User) (reading : EnergyReading) (created : Bool)
    (notifications : List Notification) : List Notification :=
  if created && u.usage_alert then
    if u.usage_threshold ≤ reading.energy_kwh then
      notifications ++
        [⟨u.id, NotificationType.high_usage,
          NotificationData.highUsage reading.id reading.energy_kwh u.usage_threshold⟩]
    else notifications
  else notifications

/-- `check_balance_alerts` (notifications/signals.py lines 36-51): post_save
receiver for Payment.  Note the source ignores `created` and fires on every
save of a payment whose status is success; the balance it compares is
`instance.user.balance` as it stands when the payment row is saved. -/
def check_balance_alerts (payment : Payment) (u : User)
    (notifications : List Notification) : List Notification :=
  if payment.status = PaymentStatus.success ∧ u.low_balance_alert then
    if u.balance ≤ u.low_balance_threshold then
      notifications ++
        [⟨u.id, NotificationType.low_balance,
          NotificationData.lowBalance u.balance u.low_balance_threshold⟩]
    else notifications
  else notifications

/-- The low_balance rows of a notification table. -/
def lowBalanceAlerts (ns : List Notification) : List Notification :=
  ns.filter (fun n => decide (n.notificationType = NotificationType.low_balance))

/-- A sequence of new-reading events for one user, delivered to
`check_usage_alerts` in order (each save has `created = true`). -/
def processReadingEvents (u : User) (rs : List EnergyReading)
    (notifications : List Notification) : List Notification :=
  rs.foldl (fun acc r => check_usage_alerts u r true acc) notifications

/-- A sequence of payment saves for one user, delivered to
`check_balance_alerts` in order. -/
def processPaymentEvents (u : User) (ps : List Payment)
    (notifications : List Notification) : List Notification :=
  ps.foldl (fun acc p => check_balance_alerts p u acc) notifications

/-- `User.update_balance` (accounts/models.py lines 54-58). -/
def User.update_balance (u : User) (amount : ℚ) : User :=
  { u with balance := u.balance + amount }

/-- Joint state of one user's row, one payment row and the notification
table, as touched by `Payment.mark_as_success`. -/
structure PaySystem where
  user : User
  payment : Payment
  notifications : List Notification
deriving DecidableEq, Repr

/-- `Payment.mark_as_success` (payments/models.py lines 70-88).  The order
of effects in the source: `self.save()` fires the post_save signal
(`check_balance_alerts`) FIRST, then `self.user.update_balance(self.amount)`
credits the balance, then the payment_success notification is created. -/
def mark_as_success (st : PaySystem) : PaySystem :=
  if st.payment.status ≠ PaymentStatus.success then
    let p := { st.payment with status := PaymentStatus.success }
    let ns := check_balance_alerts p st.user st.notifications
    let u := st.user.update_balance p.amount
    let ns := ns ++ [⟨u.id, NotificationType.payment_success, NotificationData.payment p.id⟩]
    ⟨u, p, ns⟩
  else st

/-- `PaymentCreateSerializer.validate_amount` (payments/serializers.py
lines 33-39). -/
def validate_amount (value : ℚ) : Except String ℚ :=
  if value ≤ 0 then Except.error "Amount must be greater than 0"
  else if 1000 < value then Except.error "Amount cannot exceed $1000 per transaction"
  else Except.ok value

/-- `PaymentViewSet.create` (payments/views.py lines 46-68): validates the
amount, creates the payment row (status pending, then processing — each save
fires `check_balance_alerts`, a no-op while status is not success), then
calls `mark_as_success`. -/
def credit (u : User) (notifications : List Notification) (pid : Nat)
    (amount : ℚ) : Except String PaySystem :=
  match validate_amount amount with
  | Except.error e => Except.error e
  | Except.ok a =>
    let p : Payment := ⟨pid, u.id, a, PaymentStatus.pending⟩
    let ns := check_balance_alerts p u notifications
    let p := { p with status := PaymentStatus.processing }
    let ns := check_balance_alerts p u ns
    Except.ok (mark_as_success ⟨u, p, ns⟩)

/-- `EnergyReading.save` (energy_usage/models.py lines 54-59): the derived
cost is `energy_kwh * Decimal(str(settings.ENERGY_RATE_PER_KWH))`, an exact
decimal product with no rounding step.  The rate is process-wide
configuration, passed here explicitly. -/
def readingCost (energy_kwh rate : ℚ) : ℚ :=
  energy_kwh * rate

/-- The reading store together with the configured
`settings.ENERGY_RATE_PER_KWH`. -/
structure ReadingStore where
  rate : ℚ
  readings : List EnergyReading
deriving DecidableEq, Repr

/-- Creating an EnergyReading (the ingestion path through
`EnergyReadingCreateSerializer.create` and `EnergyReading.save`): the cost
is derived once, from the rate configured at creation time, and the row is
appended to the store. -/
def createReading (st : ReadingStore) (id uid ts : Nat) (energy power : ℚ) :
    ReadingStore :=
  { st with readings :=
      st.readings ++ [⟨id, uid, ts, energy, power, readingCost energy st.rate⟩] }

/-- Changing the configured rate touches only the configuration value;
stored readings are immutable snapshots. -/
def setEnergyRate (st : ReadingStore) (r : ℚ) : ReadingStore :=
  { st with rate := r }

/-- `UsageSummary.PERIOD_CHOICES` (energy_usage/models.py). -/
inductive PeriodType where
  | daily
  | weekly
  | monthly
deriving DecidableEq, Repr

/-- The `unique_together` key of a UsageSummary row:
(user, period_type, start_date). -/
structure SummaryKey where
  userId : Nat
  periodType : PeriodType
  startDate : Nat
deriving DecidableEq, Repr

/-- The non-key fields of a UsageSummary row (energy_usage/models.py), i.e.
exactly the `defaults` that `update_or_create` writes in
`UsageSummaryViewSet.generate`. -/
structure SummaryData where
  endDate : Nat
  total_energy_kwh : ℚ
  average_power_kw : ℚ
  peak_power_kw : ℚ
  total_cost : ℚ
  reading_count : Nat
deriving DecidableEq, Repr

/-- The calendar date (days since epoch) of a reading's timestamp, as used
by the `timestamp__date` lookups. -/
def EnergyReading.tsDate (r : EnergyReading) : Nat :=
  r.timestamp / 86400

/-- The queryset of `UsageSummaryViewSet.generate` (energy_usage/views.py
lines 242-246): readings of the requesting user whose timestamp date lies
in the closed interval [startDate, endDate]. -/
def matchingReadings (readings : List EnergyReading) (uid startDate endDate : Nat) :
    List EnergyReading :=
  readings.filter
    (fun r => decide (r.userId = uid ∧ startDate ≤ r.tsDate ∧ r.tsDate ≤ endDate))

/-- Django's `Max` aggregate over a list of values; `0` stands for the
`or 0` fallback the view applies (reachable only on an empty set, which the
view has already excluded). -/
def listMax : List ℚ → ℚ
  | [] => 0
  | x :: xs => xs.foldl max x

/-- The `readings.aggregate(...)` call of `generate` (energy_usage/views.py
lines 255-261), packaged as the `defaults` of the subsequent
`update_or_create` (lines 264-276). -/
def aggregateStats (rs : List EnergyReading) (endDate : Nat) : SummaryData :=
  { endDate := endDate
    total_energy_kwh := (rs.map (fun r => r.energy_kwh)).sum
    average_power_kw := (rs.map (fun r => r.power_kw)).sum / rs.length
    peak_power_kw := listMax (rs.map (fun r => r.power_kw))
    total_cost := (rs.map (fun r => r.cost)).sum
    reading_count := rs.length }

/-- Whether a summary row with the given key exists. -/
def keyExists (l : List (SummaryKey × SummaryData)) (k : SummaryKey) : Bool :=
  l.any (fun e => decide (e.1 = k))

/-- The write of `update_or_create`: the row with key `k` is fully replaced
by `d` (every `defaults` field overwritten); if no row with key `k` exists
one is appended. -/
def upsertList (l : List (SummaryKey × SummaryData)) (k : SummaryKey)
    (d : SummaryData) : List (SummaryKey × SummaryData) :=
  match l with
  | [] => [(k, d)]
  | (k', d') :: rest =>
    if k' = k then (k, d) :: rest else (k', d') :: upsertList rest k d

/-- The reading table and the summary table, the state
`UsageSummaryViewSet.generate` reads and writes. -/
structure AggState where
  readings : List EnergyReading
  summaries : List (SummaryKey × SummaryData)
deriving DecidableEq, Repr

/-- The failure responses of `generate`: the 400 validation responses
(missing or malformed dates, energy_usage/views.py lines 225-239) and the
404 no-readings response (lines 248-252). -/
inductive GenError where
  | validationError (msg : String)
  | noData
deriving DecidableEq, Repr

/-- `UsageSummaryViewSet.generate` (energy_usage/views.py lines 218-285)
after date parsing (the missing/malformed-date branches produce
`GenError.validationError` upstream of this point and do not reach the
body).  Returns the new state and either an error or the written summary
data together with Django's `created` flag.  Note the source contains no
check that `startDate ≤ endDate`. -/
def generate (st : AggState) (uid : Nat) (periodType : PeriodType)
    (startDate endDate : Nat) : AggState × Except GenError (SummaryData × Bool) :=
  let rs := matchingReadings st.readings uid startDate endDate
  if rs.isEmpty then (st, Except.error GenError.noData)
  else
    let data := aggregateStats rs endDate
    let key : SummaryKey := ⟨uid, periodType, startDate⟩
    ({ st with summaries := upsertList st.summaries key data },
      Except.ok (data, !keyExists st.summaries key))

/-- Whether a `generate` outcome is one of the 400 validation rejections. -/
def isValidationFailure (r : AggState × Except GenError (SummaryData × Bool)) : Bool :=
  match r.2 with
  | Except.error (GenError.validationError _) => true
  | _ => false

/-- Hour-of-day (wall clock, UTC) of a timestamp, as Python's
`timestamp.hour`. -/
def hourOf (ts : Nat) : Nat :=
  ts / 3600 % 24

/-- The queryset of `chart_data` with `period == 'day'`
(energy_usage/views.py lines 106-109): the user's readings with
`timestamp >= now - 24h` (no upper bound in the source). -/
def chartDayFiltered (readings : List EnergyReading) (uid now : Nat) :
    List EnergyReading :=
  readings.filter (fun r => decide (r.userId = uid ∧ now - 86400 ≤ r.timestamp))

/-- The 24 hourly bucket values of `chart_data` `'day'` (lines 111-120),
before the response-level rounding: bucket `h` sums the energies of the
filtered readings whose wall-clock hour is `h`; an empty bucket sums the
default `[0]`, i.e. is `0`. -/
def chartDayData (readings : List EnergyReading) (uid now : Nat) : List ℚ :=
  (List.range 24).map (fun h =>
    ((chartDayFiltered readings uid now).filter
        (fun r => decide (hourOf r.timestamp = h))).map (fun r => r.energy_kwh) |>.sum)

/-- The 24 labels `f"{h:02d}:00"` (line 119). -/
def chartDayLabels : List String :=
  (List.range 24).map (fun h =>
    (if h < 10 then "0" ++ toString h else toString h) ++ ":00")

/-- The `'day'` chart response (lines 165-175): the labels and the bucket
values, each value passed through `round(d, 2)` (line 169). -/
def chartDayResponse (readings : List EnergyReading) (uid now : Nat) :
    List String × List ℚ :=
  (chartDayLabels, (chartDayData readings uid now).map pythonRound2)

/-- Modelled from the spec: the user's "true total energy over the trailing
24 hours" at time `now` — the sum of the energies of the user's readings
with `now - 24h ≤ timestamp ≤ now`.  Stated from the spec's words to
compare the chart response against. -/
def specTotal24h (readings : List EnergyReading) (uid now : Nat) : ℚ :=
  ((readings.filter (fun r =>
      decide (r.userId = uid ∧ now - 86400 ≤ r.timestamp ∧ r.timestamp ≤ now))).map
    (fun r => r.energy_kwh)).sum

/-- Fixture: a user with both alert flags enabled, balance 5.00,
low_balance_threshold 10.00 (the model default) and usage_threshold 5.0. -/
def u0 : User := ⟨1, 5, true, true, 10, 5⟩

/-- Fixture: a processing payment of amount 100.00 for `u0`. -/
def p0 : Payment := ⟨1, 1, 100, PaymentStatus.processing⟩

/-- Fixture: three readings whose energy meets `u0`'s usage threshold. -/
def rs1 : List EnergyReading :=
  [⟨1, 1, 1000, 5, 1, 100⟩, ⟨2, 1, 2000, 6, 1, 120⟩, ⟨3, 1, 3000, 7, 1, 140⟩]

/-- Fixture: two successful payments for `u0`. -/
def ps1 : List Payment :=
  [⟨1, 1, 2, PaymentStatus.success⟩, ⟨2, 1, 3, PaymentStatus.success⟩]

/-- Fixture: a reading store with rate 25 and no readings. -/
def energySt0 : ReadingStore := ⟨25, []⟩

/-- Fixture: one reading of 0.004 kWh at timestamp 360000 (hour 04:00). -/
def readings1 : List EnergyReading := [⟨1, 1, 360000, 1/250, 1, 1/10⟩]

/-- Fixture: an aggregator state holding one reading on day 5 and no
summaries. -/
def aggSt0 : AggState := ⟨[⟨1, 1, 5 * 86400, 2, 3, 50⟩], []⟩

/-- Fixture: an aggregator state holding two readings (days 2 and 3) and no
summaries. -/
def aggStA : AggState := ⟨[⟨1, 1, 2 * 86400, 2, 3, 50⟩, ⟨2, 1, 3 * 86400, 1, 7, 25⟩], []⟩

/-- Helper: a qualifying new-reading event appends exactly one high_usage
notification. -/
theorem check_usage_alerts_qualifying (u : User) (r : EnergyReading)
    (ns : List Notification) (hA : u.usage_alert = true)
    (hT : u.usage_threshold ≤ r.energy_kwh) :
    check_usage_alerts u r true ns
      = ns ++ [⟨u.id, NotificationType.high_usage,
          NotificationData.highUsage r.id r.energy_kwh u.usage_threshold⟩] := by
  simp [check_usage_alerts, hA, hT]

/-- Helper: a qualifying successful-payment save appends exactly one
low_balance notification. -/
theorem check_balance_alerts_qualifying (p : Payment) (u : User)
    (ns : List Notification) (hs : p.status = PaymentStatus.success)
    (hf : u.low_balance_alert = true) (hb : u.balance ≤ u.low_balance_threshold) :
    check_balance_alerts p u ns
      = ns ++ [⟨u.id, NotificationType.low_balance,
          NotificationData.lowBalance u.balance u.low_balance_threshold⟩] := by
  simp [check_balance_alerts, hs, hf, hb]

/-- Helper: a sequence of qualifying reading events grows the notification
table by exactly its length. -/
theorem processReadingEvents_len (u : User) (rs : List EnergyReading)
    (hA : u.usage_alert = true)
    (hq : ∀ r ∈ rs, u.usage_threshold ≤ r.energy_kwh) :
    ∀ ns : List Notification,
      (processReadingEvents u rs ns).length = ns.length + rs.length := by
  induction rs with
  | nil => intro ns; simp [processReadingEvents]
  | cons r t ih =>
    intro ns
    have h1 : u.usage_threshold ≤ r.energy_kwh := hq r (List.mem_cons_self r t)
    have h2 : ∀ x ∈ t, u.usage_threshold ≤ x.energy_kwh :=
      fun x hx => hq x (List.mem_cons_of_mem r hx)
    have hstep : processReadingEvents u (r :: t) ns
        = processReadingEvents u t (check_usage_alerts u r true ns) := rfl
    rw [hstep, ih h2, check_usage_alerts_qualifying u r ns hA h1]
    simp
    omega

/-- Helper: a sequence of qualifying payment saves grows the notification
table by exactly its length. -/
theorem processPaymentEvents_len (u : User) (ps : List Payment)
    (hf : u.low_balance_alert = true) (hb : u.balance ≤ u.low_balance_threshold)
    (hq : ∀ p ∈ ps, p.status = PaymentStatus.success) :
    ∀ ns : List Notification,
      (processPaymentEvents u ps ns).length = ns.length + ps.length := by
  induction ps with
  | nil => intro ns; simp [processPaymentEvents]
  | cons p t ih =>
    intro ns
    have h1 : p.status = PaymentStatus.success := hq p (List.mem_cons_self p t)
    have h2 : ∀ x ∈ t, x.status = PaymentStatus.success :=
      fun x hx => hq x (List.mem_cons_of_mem p hx)
    have hstep : processPaymentEvents u (p :: t) ns
        = processPaymentEvents u t (check_balance_alerts p u ns) := rfl
    rw [hstep, ih h2, check_balance_alerts_qualifying p u ns h1 hf hb]
    simp
    omega

/-- C6: on every newly created reading (`created = true`), a high_usage
alert carrying (reading_id, energy, threshold) is appended if and only if
the user's usage-alert flag is enabled and `energy_kwh >= usage_threshold`
(closed comparison); in particular a disabled flag yields no alert for any
energy value. -/
theorem check_usage_alerts_spec (u : User) (r : EnergyReading)
    (ns : List Notification) :
    check_usage_alerts u r true ns
      = ns ++ (if u.usage_alert = true ∧ u.usage_threshold ≤ r.energy_kwh
          then [⟨u.id, NotificationType.high_usage,
            NotificationData.highUsage r.id r.energy_kwh u.usage_threshold⟩]
          else []) := by
  by_cases hA : u.usage_alert = true <;> by_cases hT : u.usage_threshold ≤ r.energy_kwh <;>
    simp [check_usage_alerts, hA, hT]

/-- C7: the threshold evaluator is memoryless — every qualifying event
unconditionally appends a fresh Alert row, regardless of the notifications
that already exist: n qualifying reading events produce exactly n new
high_usage alerts, and n qualifying successful-payment saves produce
exactly n new low_balance alerts. -/
theorem threshold_evaluator_memoryless (u : User) (rs : List EnergyReading)
    (ps : List Payment) (ns ms : List Notification) :
    (u.usage_alert = true → (∀ r ∈ rs, u.usage_threshold ≤ r.energy_kwh) →
      (processReadingEvents u rs ns).length = ns.length + rs.length) ∧
    (u.low_balance_alert = true → u.balance ≤ u.low_balance_threshold →
      (∀ p ∈ ps, p.status = PaymentStatus.success) →
      (processPaymentEvents u ps ms).length = ms.length + ps.length) :=
  ⟨fun hA hq => processReadingEvents_len u rs hA hq ns,
   fun hf hb hq => processPaymentEvents_len u ps hf hb hq ms⟩

/-- Witness for C7: for `u0` (both flags on, balance 5 ≤ threshold 10),
three qualifying readings and two successful payments produce exactly
three and two alerts. -/
theorem threshold_evaluator_memoryless_witness :
    (processReadingEvents u0 rs1 []).length = List.length ([] : List Notification) + rs1.length ∧
    (processPaymentEvents u0 ps1 []).length = List.length ([] : List Notification) + ps1.length :=
  ⟨(threshold_evaluator_memoryless u0 rs1 ps1 [] []).1 rfl
      (by intro r hr; fin_cases hr <;> norm_num [u0, rs1]),
   (threshold_evaluator_memoryless u0 rs1 ps1 [] []).2 rfl (by norm_num [u0])
      (by intro p hp; fin_cases hp <;> norm_num [ps1])⟩

/-- Counterexample for C1: user `u0` has balance 5.00 and
low_balance_threshold 10.00; a successful credit of 100.00 leaves the
balance at 105.00, strictly above the threshold, yet a low_balance alert IS
raised — and it carries the pre-credit balance 5.00, not the balance
resulting from the credit.  So the alert is not raised "exactly when the
balance resulting from the credit is <= low_balance_threshold". -/
theorem low_balance_alert_despite_topup_cex :
    (mark_as_success ⟨u0, p0, []⟩).user.low_balance_threshold
        < (mark_as_success ⟨u0, p0, []⟩).user.balance
    ∧ lowBalanceAlerts (mark_as_success ⟨u0, p0, []⟩).notifications
        = [⟨1, NotificationType.low_balance, NotificationData.lowBalance 5 10⟩] := by
  have hps : PaymentStatus.processing ≠ PaymentStatus.success := by decide
  constructor
  · norm_num [mark_as_success, check_balance_alerts, User.update_balance, u0, p0, hps]
  · norm_num [mark_as_success, check_balance_alerts, User.update_balance,
      lowBalanceAlerts, u0, p0, hps]
    decide

/-- C1 (amended): on a successful-payment credit (`mark_as_success` of a
not-yet-successful payment) for a user whose low-balance alert is enabled,
a low_balance alert is raised exactly when the PRE-credit balance — the
balance when the payment row is saved, before `update_balance` runs — is
`<= low_balance_threshold` (closed comparison), and the raised condition
carries that pre-credit balance together with the threshold; the credit
itself is applied after the check, so the final balance is the pre-credit
balance plus the amount. -/
theorem mark_as_success_low_balance_pre_credit (st : PaySystem)
    (hs : st.payment.status ≠ PaymentStatus.success)
    (hflag : st.user.low_balance_alert = true) :
    (mark_as_success st).notifications
      = st.notifications
        ++ (if st.user.balance ≤ st.user.low_balance_threshold
            then [⟨st.user.id, NotificationType.low_balance,
              NotificationData.lowBalance st.user.balance st.user.low_balance_threshold⟩]
            else [])
        ++ [⟨st.user.id, NotificationType.payment_success,
            NotificationData.payment st.payment.id⟩]
    ∧ (mark_as_success st).user.balance = st.user.balance + st.payment.amount := by
  unfold mark_as_success
  rw [if_pos hs]
  by_cases hb : st.user.balance ≤ st.user.low_balance_threshold <;>
    simp [check_balance_alerts, User.update_balance, hflag, hb]

/-- Witness for C1 (amended), at `u0` (balance 5 ≤ threshold 10, flag on)
and the processing payment `p0` of amount 100. -/
theorem mark_as_success_low_balance_pre_credit_witness :
    (mark_as_success ⟨u0, p0, []⟩).notifications
      = ([] : List Notification)
        ++ (if u0.balance ≤ u0.low_balance_threshold
            then [⟨u0.id, NotificationType.low_balance,
              NotificationData.lowBalance u0.balance u0.low_balance_threshold⟩]
            else [])
        ++ [⟨u0.id, NotificationType.payment_success,
            NotificationData.payment p0.id⟩]
    ∧ (mark_as_success ⟨u0, p0, []⟩).user.balance = u0.balance + p0.amount :=
  mark_as_success_low_balance_pre_credit ⟨u0, p0, []⟩ (by decide) rfl

/-- C9: a credit with amount <= 0 fails validation with the
invalid-amount error (and, the flow having stopped at validation, no state
is produced: the balance is untouched); a credit with amount > 0 that is
accepted (amount within the per-transaction cap) and confirmed successful
increases the balance by exactly that amount. -/
theorem credit_amount_contract (u : User) (ns : List Notification)
    (pid : Nat) (amount : ℚ) :
    (amount ≤ 0 →
      credit u ns pid amount = Except.error "Amount must be greater than 0") ∧
    (0 < amount → amount ≤ 1000 →
      (credit u ns pid amount).toOption.map (fun st => st.user.balance)
        = some (u.balance + amount)) := by
  constructor
  · intro hle
    simp [credit, validate_amount, hle]
  · intro hpos hcap
    have h1 : ¬ amount ≤ 0 := not_le.mpr hpos
    have h2 : ¬ (1000 : ℚ) < amount := not_lt.mpr hcap
    have hpend : PaymentStatus.pending ≠ PaymentStatus.success := by decide
    have hproc : PaymentStatus.processing ≠ PaymentStatus.success := by decide
    simp [credit, validate_amount, h1, h2, mark_as_success, check_balance_alerts,
      User.update_balance, Except.toOption, hpend, hproc]

/-- Witness for C9: crediting -5 is rejected with the invalid-amount
error; crediting 7 to `u0` (balance 5) yields balance 12. -/
theorem credit_amount_contract_witness :
    credit u0 [] 1 (-5) = Except.error "Amount must be greater than 0" ∧
    (credit u0 [] 1 7).toOption.map (fun st => st.user.balance)
      = some (u0.balance + 7) :=
  ⟨(credit_amount_contract u0 [] 1 (-5)).1 (by norm_num),
   (credit_amount_contract u0 [] 1 7).2 (by norm_num) (by norm_num)⟩

/-- C10: every payment-creation request with amount > 1000 is rejected by
`validate_amount` with the per-transaction-cap message; the flow stops at
validation, so no payment row is created and no balance is mutated. -/
theorem credit_cap_1000 (u : User) (ns : List Notification) (pid : Nat)
    (amount : ℚ) (h : 1000 < amount) :
    credit u ns pid amount
      = Except.error "Amount cannot exceed $1000 per transaction" := by
  have h1 : ¬ amount ≤ 0 := not_le.mpr (lt_trans (by norm_num) h)
  simp [credit, validate_amount, h1, h]

/-- Witness for C10: a credit of 1001 is rejected with the cap message. -/
theorem credit_cap_1000_witness :
    credit u0 [] 1 1001
      = Except.error "Amount cannot exceed $1000 per transaction" :=
  credit_cap_1000 u0 [] 1 1001 (by norm_num)

/-- Counterexample for C2: with configured rate 25.00, a reading of energy
0.005 kWh stores cost 0.005 * 25 = 0.125 exactly — not the round-half-up
2-decimal value 0.13 the claim requires. -/
theorem reading_cost_not_half_up_cex :
    ((createReading energySt0 1 1 0 (1/200) 1).readings.map (fun r => r.cost))
        = [1/8]
    ∧ specRoundHalfUp2 ((1/200) * 25) = 13/100
    ∧ ((1 : ℚ)/8) ≠ 13/100 := by
  refine ⟨by norm_num [createReading, readingCost, energySt0], ?_, by norm_num⟩
  have harg : ((1 : ℚ)/200 * 25) * 100 + 1/2 = 13 := by norm_num
  have hfl : ⌊((1 : ℚ)/200 * 25) * 100 + 1/2⌋ = 13 := by
    rw [harg, Int.floor_eq_iff]
    constructor <;> norm_num
  rw [specRoundHalfUp2, hfl]
  norm_num

/-- C2 (amended): the stored cost of a reading created with energy e under
configured rate r is exactly e * r — the product in exact decimal
arithmetic, with no rounding step in `save` — computed once at creation
from the rate configured at that moment; a later change of the rate
configuration leaves every stored reading (hence its cost) unchanged. -/
theorem reading_cost_exact_and_immutable (st : ReadingStore)
    (id uid ts : Nat) (e p newRate : ℚ) :
    ((createReading st id uid ts e p).readings.map (fun r => r.cost))
        = st.readings.map (fun r => r.cost) ++ [e * st.rate]
    ∧ (setEnergyRate (createReading st id uid ts e p) newRate).readings
        = (createReading st id uid ts e p).readings := by
  constructor
  · simp [createReading, readingCost]
  · simp [setEnergyRate]

/-- Helper: upserting the same key/data twice is the same as once. -/
theorem upsertList_idem (l : List (SummaryKey × SummaryData)) (k : SummaryKey)
    (d : SummaryData) : upsertList (upsertList l k d) k d = upsertList l k d := by
  induction l with
  | nil => simp [upsertList]
  | cons e rest ih =>
    by_cases hk : e.1 = k
    · simp [upsertList, hk]
    · simp [upsertList, hk, ih]

/-- Helper: after an upsert the key exists. -/
theorem keyExists_upsertList (l : List (SummaryKey × SummaryData))
    (k : SummaryKey) (d : SummaryData) : keyExists (upsertList l k d) k = true := by
  induction l with
  | nil => simp [upsertList, keyExists]
  | cons e rest ih =>
    by_cases hk : e.1 = k
    · simp [upsertList, hk, keyExists]
    · simp only [upsertList, if_neg hk, keyExists, List.any_cons, Bool.or_eq_true]
      exact Or.inr ih

/-- Helper: the reduction of `generate` on a non-empty matching set. -/
theorem generate_of_match (st : AggState) (uid : Nat) (pt : PeriodType)
    (sd ed : Nat) (h : matchingReadings st.readings uid sd ed ≠ []) :
    generate st uid pt sd ed
      = (AggState.mk st.readings
          (upsertList st.summaries ⟨uid, pt, sd⟩
            (aggregateStats (matchingReadings st.readings uid sd ed) ed)),
         Except.ok (aggregateStats (matchingReadings st.readings uid sd ed) ed,
            !keyExists st.summaries ⟨uid, pt, sd⟩)) := by
  have hE : (matchingReadings st.readings uid sd ed).isEmpty = false := by
    simpa [List.isEmpty_iff] using h
  simp [generate, hE]

/-- Helper: the reduction of `generate` on an empty matching set. -/
theorem generate_of_no_match (st : AggState) (uid : Nat) (pt : PeriodType)
    (sd ed : Nat) (h : matchingReadings st.readings uid sd ed = []) :
    generate st uid pt sd ed = (st, Except.error GenError.noData) := by
  simp [generate, h]

/-- C3: `generate` is idempotent — with at least one matching reading,
running it a second time over the same reading set leaves the whole summary
store bit-identical to the result of the first run, and the second run
fully replaces the existing row with the freshly computed aggregate
(returning it with `created = false`). -/
theorem generate_idempotent (st : AggState) (uid : Nat) (pt : PeriodType)
    (sd ed : Nat) (h : matchingReadings st.readings uid sd ed ≠ []) :
    generate (generate st uid pt sd ed).1 uid pt sd ed
      = ((generate st uid pt sd ed).1,
         Except.ok (aggregateStats (matchingReadings st.readings uid sd ed) ed, false)) := by
  rw [generate_of_match st uid pt sd ed h]
  have hr : (AggState.mk st.readings
      (upsertList st.summaries ⟨uid, pt, sd⟩
        (aggregateStats (matchingReadings st.readings uid sd ed) ed))).readings
      = st.readings := rfl
  rw [generate_of_match _ uid pt sd ed (by rw [hr]; exact h)]
  rw [hr]
  simp [upsertList_idem, keyExists_upsertList]

/-- Witness for C3: on a store with two matching readings, the second
`generate` call returns the same aggregate with `created = false` and the
same store. -/
theorem generate_idempotent_witness :
    generate (generate aggStA 1 PeriodType.daily 0 10).1 1 PeriodType.daily 0 10
      = ((generate aggStA 1 PeriodType.daily 0 10).1,
         Except.ok (aggregateStats (matchingReadings aggStA.readings 1 0 10) 10, false)) :=
  generate_idempotent aggStA 1 PeriodType.daily 0 10
    (by simp [matchingReadings, aggStA, EnergyReading.tsDate])

/-- C4: for every user and date range with no matching readings,
`generate` fails with the no-data (404) outcome and leaves the whole state
— in particular the summary store — completely unchanged. -/
theorem generate_no_data_unchanged (st : AggState) (uid : Nat)
    (pt : PeriodType) (sd ed : Nat)
    (h : matchingReadings st.readings uid sd ed = []) :
    generate st uid pt sd ed = (st, Except.error GenError.noData) :=
  generate_of_no_match st uid pt sd ed h

/-- Witness for C4: on the one-reading store `aggSt0` (its reading lies on
day 5), the range [7, 9] matches nothing: `generate` errors with noData and
returns the state unchanged. -/
theorem generate_no_data_unchanged_witness :
    generate aggSt0 1 PeriodType.daily 7 9 = (aggSt0, Except.error GenError.noData) :=
  generate_no_data_unchanged aggSt0 1 PeriodType.daily 7 9
    (by norm_num [matchingReadings, aggSt0, EnergyReading.tsDate])

/-- Counterexample for C5: on a store that does contain a reading, calling
`generate` with the non-monotonic range [6, 4] is NOT rejected with a
validation error — it falls through to the 404 no-data outcome (no reading
can match an empty interval), because the source never checks
`start_date <= end_date`. -/
theorem generate_nonmonotonic_cex :
    isValidationFailure (generate aggSt0 1 PeriodType.daily 6 4) = false ∧
    (generate aggSt0 1 PeriodType.daily 6 4).2 = Except.error GenError.noData ∧
    (generate aggSt0 1 PeriodType.daily 6 4).1 = aggSt0 := by
  have h : matchingReadings aggSt0.readings 1 6 4 = [] := by
    norm_num [matchingReadings, aggSt0, EnergyReading.tsDate]
  rw [generate_of_no_match aggSt0 1 PeriodType.daily 6 4 h]
  exact ⟨rfl, rfl, rfl⟩

/-- C5 (amended): a call with a non-monotonic date range
(startDate > endDate) matches no readings, so it fails with the no-data
(404) outcome — not a validation error, which the source never produces for
this case — and no summary row is created or updated (the state is
returned unchanged). -/
theorem generate_nonmonotonic_no_data (st : AggState) (uid : Nat)
    (pt : PeriodType) (sd ed : Nat) (h : ed < sd) :
    generate st uid pt sd ed = (st, Except.error GenError.noData) := by
  apply generate_of_no_match
  apply List.filter_eq_nil_iff.mpr
  intro r _
  simp only [decide_eq_true_eq]
  intro hc
  omega

/-- Witness for C5 (amended), at the concrete range [6, 4] on `aggSt0`. -/
theorem generate_nonmonotonic_no_data_witness :
    generate aggSt0 1 PeriodType.daily 6 4 = (aggSt0, Except.error GenError.noData) :=
  generate_nonmonotonic_no_data aggSt0 1 PeriodType.daily 6 4 (by norm_num)

/-- Helper: a sum over `List.range n` is the corresponding `Finset.range`
sum. -/
theorem list_range_map_sum (f : ℕ → ℚ) (n : ℕ) :
    ((List.range n).map f).sum = ∑ h ∈ Finset.range n, f h := by
  induction n with
  | zero => simp
  | succ m ih => simp [List.range_succ, Finset.sum_range_succ, ih]

/-- Helper: hour-of-day buckets partition a reading list — the 24 bucket
sums add up to the total energy of the list. -/
theorem bucket_partition (l : List EnergyReading) :
    (∑ h ∈ Finset.range 24,
      ((l.filter (fun r => decide (hourOf r.timestamp = h))).map
        (fun r => r.energy_kwh)).sum)
      = (l.map (fun r => r.energy_kwh)).sum := by
  induction l with
  | nil => simp
  | cons r t ih =>
    have hstep : ∀ h : ℕ,
        (((r :: t).filter (fun x => decide (hourOf x.timestamp = h))).map
          (fun x => x.energy_kwh)).sum
        = (if hourOf r.timestamp = h then r.energy_kwh else 0)
          + ((t.filter (fun x => decide (hourOf x.timestamp = h))).map
              (fun x => x.energy_kwh)).sum := by
      intro h
      rw [List.filter_cons]
      by_cases hh : hourOf r.timestamp = h
      · simp [hh]
      · simp [hh]
    have hmem : hourOf r.timestamp ∈ Finset.range 24 :=
      Finset.mem_range.mpr (Nat.mod_lt _ (by norm_num))
    rw [Finset.sum_congr rfl (fun h _ => hstep h), Finset.sum_add_distrib, ih,
      Finset.sum_ite_eq (Finset.range 24) (hourOf r.timestamp)
        (fun _ => r.energy_kwh), if_pos hmem]
    simp

/-- Helper: with no reading timestamped after `now`, the chart's
`timestamp >= now - 24h` queryset coincides with the closed trailing
24-hour window of `specTotal24h`. -/
theorem chartDayFiltered_eq_window (readings : List EnergyReading)
    (uid now : Nat) (hts : ∀ r ∈ readings, r.timestamp ≤ now) :
    chartDayFiltered readings uid now
      = readings.filter (fun r =>
          decide (r.userId = uid ∧ now - 86400 ≤ r.timestamp ∧ r.timestamp ≤ now)) := by
  apply List.filter_congr
  intro r hr
  apply decide_eq_decide.mpr
  have h := hts r hr
  constructor
  · rintro ⟨h1, h2⟩
    exact ⟨h1, h2, h⟩
  · rintro ⟨h1, h2, _⟩
    exact ⟨h1, h2⟩

/-- Helper: `round(x, 2)` of a small non-negative value is 0. -/
theorem pythonRound2_eq_zero (x : ℚ) (h0 : 0 ≤ x) (h : x * 100 < 1/2) :
    pythonRound2 x = 0 := by
  have hf : ⌊x * 100⌋ = 0 := by
    rw [Int.floor_eq_zero_iff, Set.mem_Ico]
    constructor
    · exact mul_nonneg h0 (by norm_num)
    · linarith
  rw [pythonRound2, roundHalfEven, hf]
  have hc : x * 100 - ((0 : ℤ) : ℚ) < 1/2 := by push_cast; linarith
  rw [if_pos hc]
  norm_num

/-- Counterexample for C8: a single reading of 0.004 kWh inside the
trailing 24 hours.  The chart's per-bucket `round(d, 2)` turns its bucket
value 0.004 into 0.0, so the 24 returned values sum to 0 while the true
24-hour total is 0.004 — the returned points do not sum to the true
total. -/
theorem chart_day_rounded_sum_cex :
    ((chartDayResponse readings1 1 360000).2).sum = 0 ∧
    specTotal24h readings1 1 360000 = 1/250 ∧
    ((chartDayResponse readings1 1 360000).2).sum
      ≠ specTotal24h readings1 1 360000 := by
  have hz : pythonRound2 0 = 0 := pythonRound2_eq_zero 0 (le_refl 0) (by norm_num)
  have hv : pythonRound2 (1/250) = 0 :=
    pythonRound2_eq_zero (1/250) (by norm_num) (by norm_num)
  have hv2 : pythonRound2 ((250 : ℚ)⁻¹) = 0 := by
    rw [show ((250 : ℚ)⁻¹) = 1/250 by norm_num]
    exact hv
  have hdata : chartDayData readings1 1 360000
      = [0, 0, 0, 0, 1/250, 0, 0, 0, 0, 0, 0, 0,
         0, 0, 0, 0, 0, 0, 0, 0, 0, 0, 0, 0] := by
    norm_num [chartDayData, chartDayFiltered, readings1, hourOf, List.range_succ]
  have h1 : ((chartDayResponse readings1 1 360000).2).sum = 0 := by
    simp only [chartDayResponse]
    rw [hdata]
    simp [hz, hv, hv2]
  have h2 : specTotal24h readings1 1 360000 = 1/250 := by
    norm_num [specTotal24h, readings1]
  exact ⟨h1, h2, by rw [h1, h2]; norm_num⟩

/-- C8 (amended): for a user with no readings timestamped after `now`, the
'day' chart returns exactly 24 points labeled "00:00".."23:00" by
wall-clock hour; hours with no readings contribute a bucket value of 0; the
24 UNROUNDED bucket values sum to the user's true total energy over the
trailing 24 hours; and the values the response actually carries are those
bucket values each passed through `round(d, 2)` (so the returned sum can
differ from the true total by the per-bucket rounding). -/
theorem chart_day_spec (readings : List EnergyReading) (uid now : Nat)
    (hts : ∀ r ∈ readings, r.timestamp ≤ now) :
    chartDayLabels
      = ["00:00", "01:00", "02:00", "03:00", "04:00", "05:00",
         "06:00", "07:00", "08:00", "09:00", "10:00", "11:00",
         "12:00", "13:00", "14:00", "15:00", "16:00", "17:00",
         "18:00", "19:00", "20:00", "21:00", "22:00", "23:00"] ∧
    (chartDayData readings uid now).length = 24 ∧
    (chartDayData readings uid now).sum = specTotal24h readings uid now ∧
    (chartDayResponse readings uid now).2
      = (chartDayData readings uid now).map pythonRound2 := by
  refine ⟨by decide, by simp [chartDayData], ?_, rfl⟩
  simp only [chartDayData]
  rw [list_range_map_sum, bucket_partition (chartDayFiltered readings uid now),
    chartDayFiltered_eq_window readings uid now hts]
  rfl

/-- Witness for C8 (amended), at the one-reading store `readings1` and
`now = 360000`: the unrounded bucket values sum to the true trailing-24h
total. -/
theorem chart_day_spec_witness :
    (chartDayData readings1 1 360000).sum = specTotal24h readings1 1 360000 :=
  (chart_day_spec readings1 1 360000 (by decide)).2.2.1
